import Mathlib

/- Verification of the LiteTrack dashboard core logic: the funnel and stats
   aggregator, the event Simulator, and the AI insight client, embedded
   shallowly from the TypeScript sources (src/App.tsx, src/types.ts,
   src/services/geminiService.ts and the unnamed near-duplicate iterations
   src/unnamed/part_000 and src/unnamed/part_001). -/

namespace LiteTrack

/-- Metadata attached to an analytics event (src/types.ts). Numeric fields are
modelled as rationals; `duration` and `loadTime` are optional as in the source,
and the fields the seeders leave unset default to `none`. -/
structure Metadata where
  browser : String
  os : String
  device : String
  country : Option String := none
  sessionId : Option String := none
  duration : Option ℚ := none
  loadTime : Option ℚ := none
deriving DecidableEq, Repr

/-- An analytics event (src/types.ts, `AnalyticsEvent`). -/
structure AnalyticsEvent where
  id : String
  type : String
  path : String
  referrer : String
  timestamp : Nat
  metadata : Metadata
deriving DecidableEq, Repr

/-- JS `x || d` for an optional string field: `undefined` and `""` are falsy. -/
def jsOrStr (x : Option String) (d : String) : String :=
  match x with
  | none => d
  | some v => if v = "" then d else v

/-- JS `x || d` for an optional numeric field: `undefined` and `0` are falsy. -/
def jsOrNum (x : Option ℚ) (d : ℚ) : ℚ :=
  match x with
  | none => d
  | some v => if v = 0 then d else v

/-- JS `n || 1` on a count used as a division base: `0` is falsy. -/
def jsDivBase (n : Nat) : Nat := if n = 0 then 1 else n

/-- JS `Math.round`: round half toward positive infinity. -/
def jround (q : ℚ) : ℤ := ⌊q + 1/2⌋

/-- JS `String.prototype.includes`, on explicit character lists. -/
def charsInclude (pat : List Char) : List Char → Bool
  | [] => pat == []
  | c :: rest => pat.isPrefixOf (c :: rest) || charsInclude pat rest

/-- JS `s.includes(pat)`. -/
def jsIncludes (s pat : String) : Bool := charsInclude pat.toList s.toList

/-- A funnel step (src/types.ts, `FunnelStep`); `dropoff` and `conversion` are
rounded percentages, hence integers. -/
structure FunnelStep where
  label : String
  count : Nat
  dropoff : ℤ
  conversion : ℤ
  stepKey : String
deriving DecidableEq, Repr

/-- A funnel report (src/types.ts, `FunnelReport`). -/
structure FunnelReport where
  name : String
  steps : List FunnelStep
deriving DecidableEq, Repr

/-- Membership count of funnel step 0 (src/App.tsx line 105). -/
def homeCount (es : List AnalyticsEvent) : Nat :=
  (es.filter (fun e => e.path == "/home")).length

/-- Membership count of funnel step 1 (src/App.tsx line 106). -/
def pricingCount (es : List AnalyticsEvent) : Nat :=
  (es.filter (fun e => e.path == "/pricing" || jsIncludes e.type "pricing")).length

/-- Membership count of funnel step 2 (src/App.tsx line 107). -/
def signupCount (es : List AnalyticsEvent) : Nat :=
  (es.filter (fun e => e.path == "/signup" || e.type == "signup_start")).length

/-- Membership count of funnel step 3 (src/App.tsx line 108). -/
def completedCount (es : List AnalyticsEvent) : Nat :=
  (es.filter (fun e => e.path == "/checkout/success" || e.type == "purchase_complete")).length

/-- Indexed view of the four funnel step counts (`steps[i].count` in the source). -/
def stepCount (es : List AnalyticsEvent) : Nat → Nat
  | 0 => homeCount es
  | 1 => pricingCount es
  | 2 => signupCount es
  | 3 => completedCount es
  | _ => 0

/-- The funnel report `funnelData` (src/App.tsx lines 103-119; the same
computation appears in src/unnamed/part_000 lines 773-789 and, with the same
`dropoff`/`conversion` formulas, in src/unnamed/part_001 lines 74-89).
The `.map((s, i, arr) => ...)` over the literal four-element step array is
unrolled; JS double arithmetic is modelled over `ℚ`. -/
def funnelData (es : List AnalyticsEvent) : FunnelReport :=
  let c0 := homeCount es
  let c1 := pricingCount es
  let c2 := signupCount es
  let c3 := completedCount es
  let totalBase := jsDivBase c0
  { name := "Conversion Pipeline",
    steps := [
      { label := "Visited Home", count := c0, stepKey := "home",
        dropoff := 0,
        conversion := jround (((c0 : ℚ) / (totalBase : ℚ)) * 100) },
      { label := "Viewed Pricing", count := c1, stepKey := "pricing",
        dropoff := jround ((1 - (c1 : ℚ) / (jsDivBase c0 : ℚ)) * 100),
        conversion := jround (((c1 : ℚ) / (totalBase : ℚ)) * 100) },
      { label := "Started Signup", count := c2, stepKey := "signup",
        dropoff := jround ((1 - (c2 : ℚ) / (jsDivBase c1 : ℚ)) * 100),
        conversion := jround (((c2 : ℚ) / (totalBase : ℚ)) * 100) },
      { label := "Completed", count := c3, stepKey := "completed",
        dropoff := jround ((1 - (c3 : ℚ) / (jsDivBase c2 : ℚ)) * 100),
        conversion := jround (((c3 : ℚ) / (totalBase : ℚ)) * 100) } ] }

/-- Metadata that the seeder assigns to the i-th event of a batch
(src/App.tsx lines 65-69). -/
def seedMeta (i : Nat) : Metadata :=
  { browser := if i % 3 = 0 then "Chrome" else if i % 3 = 1 then "Safari" else "Firefox",
    os := if i % 2 = 0 then "MacOS" else "Windows",
    device := if i % 4 = 0 then "mobile" else "desktop" }

/-- One seeded batch: the body of `seed(count, path, type)` (src/App.tsx
lines 59-72). `idG` and `tsG` supply the `Math.random()`-derived id and
timestamp of the i-th pushed event. -/
def seedBlock (idG : Nat → String) (tsG : Nat → Nat) (count : Nat) (path ty : String) :
    List AnalyticsEvent :=
  (List.range count).map (fun i =>
    { id := idG i, type := ty, path := path, referrer := "direct",
      timestamp := tsG i, metadata := seedMeta i })

/-- The seeded initial event list (src/App.tsx lines 73-76), parametric in the
random id/timestamp draws of each batch. -/
def seedEvents (idG : Nat → Nat → String) (tsG : Nat → Nat → Nat) : List AnalyticsEvent :=
  seedBlock (idG 0) (tsG 0) 450 "/home" "pageview" ++
  seedBlock (idG 1) (tsG 1) 280 "/pricing" "pageview" ++
  seedBlock (idG 2) (tsG 2) 120 "/signup" "signup_start" ++
  seedBlock (idG 3) (tsG 3) 65 "/checkout/success" "purchase_complete"

/-- UI request status flag (`testStatus` in the sources). -/
inductive TestStatus
  | idle
  | sending
  | success
  | error
deriving DecidableEq, Repr

/-- Status of a sent-log entry. -/
inductive LogStatus
  | success
  | error
  | pending
deriving DecidableEq, Repr

/-- The fields of a simulator payload that the send path reads
(`payload.event` and `payload.path`); a JS object may lack either. -/
structure Payload where
  event : Option String := none
  path : Option String := none
deriving DecidableEq, Repr

/-- A sent-log entry (`SentLog` in src/App.tsx lines 11-18 and
src/unnamed/part_000 lines 11-17). `type` is optional because the error branch
of src/App.tsx stores `finalPayload.event`, which may be absent. -/
structure SentLog where
  id : String
  type : Option String
  timestamp : String
  status : LogStatus
  payload : Option Payload := none
  errorMessage : Option String := none
deriving DecidableEq, Repr

/-- The component state read and written by `sendSimulatedEvent`. -/
structure AppState where
  customEndpoint : String
  isVerified : Bool
  customJson : String
  testStatus : TestStatus
  events : List AnalyticsEvent
  sentLogs : List SentLog
deriving DecidableEq, Repr

/-- Outcome of the single `fetch` POST: either a delivered HTTP response with
its status code (`response.ok` iff the status lies in [200, 300)) or a network
error/abort carrying the thrown message. -/
inductive FetchOutcome
  | response (status : Nat)
  | netError (msg : String)
deriving DecidableEq, Repr

/-- Ambient platform inputs of one send invocation: the behaviour of
`JSON.parse` on the editor text, the fetch outcome for the configured
endpoint, and the `Math.random`/`Date` draws. -/
structure SendEnv where
  jsonParse : String → Option Payload
  fetchResult : FetchOutcome
  newId : String
  nowTs : Nat
  nowClock : String

/-- Result of one send invocation: the final component state, how many network
calls were issued, the alert popups raised, and — when the invocation ended in
an uncaught exception propagating to the caller — its message. -/
structure SendResult where
  state : AppState
  fetchCount : Nat
  alerts : List String
  thrown : Option String

/-- `sendSimulatedEvent` of src/App.tsx lines 149-199. `JSON.parse(customJson)`
sits outside the `try`, so a parse failure propagates to the caller (`thrown`);
an `ok` response appends the local event and a `success` log entry bounded to
10; a delivered non-2xx response changes neither events nor log (the
`if (response.ok)` block has no `else` branch, so only the earlier
`setTestStatus('sending')` remains visible); a fetch rejection appends an
`error` log entry bounded to 10. The `setTimeout` status resets and the
`lastMatchedStep` funnel highlighting are presentation timers outside the
model. -/
def appSendSimulatedEvent (payloadOverride : Option Payload) (s : AppState)
    (env : SendEnv) : SendResult :=
  if s.isVerified = false then ⟨s, 0, [], none⟩
  else
    match payloadOverride.orElse (fun _ => env.jsonParse s.customJson) with
    | none => ⟨s, 0, [], some "SyntaxError: JSON.parse"⟩
    | some finalPayload =>
      match env.fetchResult with
      | .netError msg =>
        let errorLog : SentLog :=
          { id := "ERR", type := finalPayload.event, timestamp := env.nowClock,
            status := .error, errorMessage := some msg }
        ⟨{ s with
            testStatus := .error,
            sentLogs := (errorLog :: s.sentLogs).take 10 }, 1, [], none⟩
      | .response status =>
        if 200 ≤ status ∧ status < 300 then
          let localEvent : AnalyticsEvent :=
            { id := env.newId, type := jsOrStr finalPayload.event "click",
              path := jsOrStr finalPayload.path "/simulator",
              referrer := "LiteTrack Sim", timestamp := env.nowTs,
              metadata := { browser := "Chrome", os := "Cloud", device := "desktop" } }
          let newLog : SentLog :=
            { id := localEvent.id, type := some localEvent.type,
              timestamp := env.nowClock, status := .success,
              payload := some finalPayload }
          ⟨{ s with
              events := s.events ++ [localEvent],
              sentLogs := (newLog :: s.sentLogs).take 10,
              testStatus := .success }, 1, [], none⟩
        else
          ⟨{ s with testStatus := .sending }, 1, [], none⟩

/-- The in-place status update `prev.map(l => l.id === logId ? { ...l, status } : l)`
used in src/unnamed/part_000 lines 147, 166 and 172. -/
def updateLogStatus (logId : String) (st : LogStatus) (logs : List SentLog) : List SentLog :=
  logs.map (fun l => if l.id = logId then { l with status := st } else l)

/-- `sendSimulatedEvent` of src/unnamed/part_000 lines 102-175 (the iteration
with the quick/advanced Event Designer and the 8-second abort controller).
An empty endpoint aborts with an alert before anything else; unparseable
editor text (no override) raises exactly one alert and stops before any log or
network activity; otherwise a `pending` entry is prepended (bounded to 10) and
then updated in place to `success` or `error` according to the fetch outcome,
the local event being appended only on an `ok` response. -/
def pASendSimulatedEvent (payloadOverride : Option Payload) (s : AppState)
    (env : SendEnv) : SendResult :=
  if s.customEndpoint = "" then
    ⟨s, 0, ["Please enter your Worker URL first!"], none⟩
  else
    let logId := env.newId
    let s1 : AppState := { s with testStatus := .sending }
    match payloadOverride.orElse (fun _ => env.jsonParse s.customJson) with
    | none =>
      ⟨{ s1 with testStatus := .error }, 0, ["Invalid JSON in Advanced Designer"], none⟩
    | some finalPayload =>
      let newLog : SentLog :=
        { id := logId, type := some (jsOrStr finalPayload.event "unknown"),
          timestamp := env.nowClock, status := .pending,
          payload := some finalPayload }
      let logs1 := (newLog :: s1.sentLogs).take 10
      match env.fetchResult with
      | .netError _ =>
        ⟨{ s1 with
            testStatus := .error,
            sentLogs := updateLogStatus logId .error logs1 }, 1, [], none⟩
      | .response status =>
        if 200 ≤ status ∧ status < 300 then
          let localEvent : AnalyticsEvent :=
            { id := logId,
              type := if finalPayload.event = some "pageview" then "pageview" else "click",
              path := jsOrStr finalPayload.path "/simulator",
              referrer := "LiteTrack Dashboard", timestamp := env.nowTs,
              metadata := { browser := "LiteTrack-Sim", os := "Cloud", device := "desktop" } }
          ⟨{ s1 with
              testStatus := .success,
              sentLogs := updateLogStatus logId .success logs1,
              events := s1.events ++ [localEvent] }, 1, [], none⟩
        else
          ⟨{ s1 with
              testStatus := .error,
              sentLogs := updateLogStatus logId .error logs1 }, 1, [], none⟩

/-- `sendSimulatedEvent` of src/unnamed/part_001 lines 104-130: the guard
returns when the connection is not verified; `JSON.parse` is outside the
`try`; the fetch response is never inspected, so any delivered response (2xx
or not) appends the local event and a `success` log entry; a fetch rejection
is swallowed by the empty `catch`. This variant never touches `testStatus`. -/
def pBSendSimulatedEvent (payloadOverride : Option Payload) (s : AppState)
    (env : SendEnv) : SendResult :=
  if s.isVerified = false then ⟨s, 0, [], none⟩
  else
    match payloadOverride.orElse (fun _ => env.jsonParse s.customJson) with
    | none => ⟨s, 0, [], some "SyntaxError: JSON.parse"⟩
    | some finalPayload =>
      match env.fetchResult with
      | .netError _ => ⟨s, 1, [], none⟩
      | .response _ =>
        let localEvent : AnalyticsEvent :=
          { id := env.newId, type := jsOrStr finalPayload.event "click",
            path := jsOrStr finalPayload.path "/simulator",
            referrer := "LiteTrack Sim", timestamp := env.nowTs,
            metadata := { browser := "LiteTrack-Sim", os := "Cloud", device := "desktop" } }
        let newLog : SentLog :=
          { id := localEvent.id, type := some localEvent.type,
            timestamp := env.nowClock, status := .success,
            payload := some finalPayload }
        ⟨{ s with
            events := s.events ++ [localEvent],
            sentLogs := (newLog :: s.sentLogs).take 10 }, 1, [], none⟩

/-- An AI-detected anomaly (src/types.ts, `Alert`). -/
structure Alert where
  id : String
  level : String
  title : String
  message : String
  timestamp : Nat
deriving DecidableEq, Repr

/-- An AI insight report (src/types.ts, `InsightReport`). -/
structure InsightReport where
  summary : String
  suggestions : List String
  performanceScore : ℚ
  anomalies : Option (List Alert) := none
deriving DecidableEq, Repr

/-- The AI provider selector (src/types.ts, `AIProviderType`). -/
inductive AIProviderType
  | geminiBuiltin
  | customEndpoint
deriving DecidableEq, Repr

/-- The AI configuration (src/types.ts, `AIConfig`). -/
structure AIConfig where
  provider : AIProviderType
  model : String
  customEndpoint : Option String := none
deriving DecidableEq, Repr

/-- Ambient behaviour of the two outbound insight channels
(src/services/geminiService.ts): `genaiText` is the `generateContent` call —
it may throw, or deliver a response whose `.text` may be absent; `parseReport`
is `JSON.parse`/`response.json()` applied to a body expected to be in the
`InsightReport` shape; `endpointFetch` is the custom-endpoint POST, returning
either a thrown error or an HTTP status plus body. Both channels depend on
the request content, abstracted here as the event list and model name. -/
structure InsightEnv where
  genaiText : List AnalyticsEvent → String → Except String (Option String)
  parseReport : String → Option InsightReport
  endpointFetch : List AnalyticsEvent → Except String (Nat × String)

/-- `GeminiProvider.generateInsights` (src/services/geminiService.ts lines
77-104): calls `generateContent` with the summary prompt and returns
`JSON.parse(response.text || '{}')`; any throw — from the call or from the
parse — propagates as an error. -/
def geminiGenerateInsights (events : List AnalyticsEvent) (config : AIConfig)
    (env : InsightEnv) : Except String InsightReport :=
  match env.genaiText events config.model with
  | .error e => .error e
  | .ok t =>
    match env.parseReport (jsOrStr t "\x7b\x7d") with
    | none => .error "SyntaxError: JSON.parse"
    | some r => .ok r

/-- `CustomEndpointProvider.generateInsights` (src/services/geminiService.ts
lines 120-136): throws when no custom endpoint is configured (JS falsy, so an
empty string also throws), throws on a network error, throws on a non-2xx
status, and throws when the response body fails to parse. The POST body
carries `events.slice(-50)`. -/
def customGenerateInsights (events : List AnalyticsEvent) (config : AIConfig)
    (env : InsightEnv) : Except String InsightReport :=
  if (config.customEndpoint.getD "") = "" then .error "No custom endpoint configured"
  else
    match env.endpointFetch (events.drop (events.length - 50)) with
    | .error e => .error e
    | .ok (status, body) =>
      if 200 ≤ status ∧ status < 300 then
        match env.parseReport body with
        | none => .error "SyntaxError: response.json"
        | some r => .ok r
      else .error "External API error"

/-- The provider dispatch inside `aiManager.getInsights`
(src/services/geminiService.ts lines 141-145). -/
def providerResult (events : List AnalyticsEvent) (config : AIConfig)
    (env : InsightEnv) : Except String InsightReport :=
  match config.provider with
  | .geminiBuiltin => geminiGenerateInsights events config env
  | .customEndpoint => customGenerateInsights events config env

/-- The fixed fallback report of `aiManager.getInsights`
(src/services/geminiService.ts lines 148-152). -/
def fallbackReport : InsightReport :=
  { summary := "The AI engine is currently unavailable or misconfigured.",
    suggestions := ["Check your API settings in the Settings tab.",
                    "Ensure your network allows outbound AI requests."],
    performanceScore := 0 }

/-- `aiManager.getInsights` (src/services/geminiService.ts lines 138-155):
every provider failure is caught and replaced by the fixed fallback report,
so the function always returns a report — in the source, the promise always
resolves. -/
def getInsights (events : List AnalyticsEvent) (config : AIConfig)
    (env : InsightEnv) : InsightReport :=
  match providerResult events config env with
  | .ok r => r
  | .error _ => fallbackReport

/-- The fixed fallback report of the older top-level
`generateAnalyticsInsights` (src/services/geminiService.ts lines 55-59). -/
def legacyFallbackReport : InsightReport :=
  { summary := "Unable to generate insights at this time.",
    suggestions := ["Ensure your tracking script is installed correctly.",
                    "Monitor traffic daily for anomalies."],
    performanceScore := 0 }

/-- The body of the `try` block of the older `generateAnalyticsInsights`
(src/services/geminiService.ts lines 29-52): a missing or empty `.text`
throws, and the text is trimmed before parsing. -/
def legacyResult (events : List AnalyticsEvent) (env : InsightEnv) :
    Except String InsightReport :=
  match env.genaiText events "gemini-3-flash-preview" with
  | .error e => .error e
  | .ok t =>
    match t with
    | none => .error "No response from AI"
    | some text =>
      if text = "" then .error "No response from AI"
      else
        match env.parseReport text.trim with
        | none => .error "SyntaxError: JSON.parse"
        | some r => .ok r

/-- `generateAnalyticsInsights` (src/services/geminiService.ts lines 5-61):
any failure is caught and replaced by the fixed fallback report. -/
def generateAnalyticsInsights (events : List AnalyticsEvent) (env : InsightEnv) :
    InsightReport :=
  match legacyResult events env with
  | .ok r => r
  | .error _ => legacyFallbackReport

/-- The overview `stats` record (src/unnamed/part_000 lines 748-757). -/
structure OverviewStats where
  totalEvents : Nat
  uniqueVisitors : Nat
  bounceRate : ℤ
  avgDuration : ℤ
  activeNow : Nat
  avgLoadTime : ℤ
  uniqueSources : Nat
  pipelineScore : ℤ
deriving DecidableEq, Repr

/-- The overview `stats` aggregation (src/unnamed/part_000 lines 726-758);
`now` models `Date.now()`. `avgDuration` and `avgLoadTime` average the
optional metadata fields with JS-falsy fallbacks 45 and 600 and are 0 when
the event list is empty; `bounceRate` is clamped above at 100. -/
def stats (now : Nat) (es : List AnalyticsEvent) : OverviewStats :=
  let homeViews := (es.filter (fun e => e.path == "/home")).length
  let progressionViews := (es.filter (fun e => !(e.path == "/home"))).length
  let bounceRate :=
    jround (((homeViews : ℚ) / (jsDivBase (homeViews + progressionViews) : ℚ)) * 100 * (45 / 100))
  let uniqueIds :=
    (es.map (fun e => e.metadata.browser ++ "-" ++ e.metadata.os ++ "-" ++ e.path.take 3)).dedup
  let avgDuration :=
    if 0 < es.length then
      jround ((es.foldl (fun acc e => acc + jsOrNum e.metadata.duration 45) 0) / (es.length : ℚ))
    else 0
  let activeNow :=
    (es.filter (fun e => decide ((now : ℤ) - 5 * 60 * 1000 < (e.timestamp : ℤ)))).length
  let avgLoadTime :=
    if 0 < es.length then
      jround ((es.foldl (fun acc e => acc + jsOrNum e.metadata.loadTime 600) 0) / (es.length : ℚ))
    else 0
  { totalEvents := es.length,
    uniqueVisitors := uniqueIds.length * 12,
    bounceRate := if 100 < bounceRate then 100 else bounceRate,
    avgDuration := avgDuration,
    activeNow := activeNow,
    avgLoadTime := avgLoadTime,
    uniqueSources := (es.map (fun e => e.referrer)).dedup.length,
    pipelineScore :=
      jround ((((es.filter (fun e => e.type == "purchase_complete")).length : ℚ) /
        (jsDivBase (es.filter (fun e => e.path == "/home")).length : ℚ)) * 100) }

/-- A minimal event with the given path and type, as the quick-send scenarios
produce. -/
def mkEv (p ty : String) : AnalyticsEvent :=
  { id := "e", type := ty, path := p, referrer := "direct", timestamp := 0,
    metadata := { browser := "Chrome", os := "MacOS", device := "desktop" } }

/-- An event list with one home visit and two pricing views: the second funnel
step exceeds the first. -/
def c4Events : List AnalyticsEvent :=
  [mkEv "/home" "pageview", mkEv "/pricing" "pageview", mkEv "/pricing" "pageview"]

/-- An environment whose editor text never parses and whose endpoint accepts. -/
def plainEnv : SendEnv :=
  { jsonParse := fun _ => none, fetchResult := .response 200,
    newId := "fresh", nowTs := 0, nowClock := "10:00:00 AM" }

/-- A configured but unverified component state. -/
def idleState : AppState :=
  { customEndpoint := "https://worker.example", isVerified := false,
    customJson := "not json", testStatus := .idle, events := [], sentLogs := [] }

/-- A configured, verified component state holding unparseable editor text. -/
def advState : AppState :=
  { customEndpoint := "https://worker.example", isVerified := true,
    customJson := "not json", testStatus := .idle, events := [], sentLogs := [] }

/-- The e-commerce scenario payload. -/
def c1Payload : Payload :=
  { event := some "purchase_complete", path := some "/checkout/success" }

/-- A verified state with empty store and log, about to receive an HTTP 500. -/
def c1State : AppState :=
  { customEndpoint := "https://worker.example", isVerified := true,
    customJson := "ignored", testStatus := .idle, events := [], sentLogs := [] }

/-- An environment whose endpoint answers HTTP 500. -/
def c1Env : SendEnv :=
  { jsonParse := fun _ => some c1Payload, fetchResult := .response 500,
    newId := "abc12", nowTs := 1700000000000, nowClock := "12:00:00 PM" }

/-- A custom-endpoint configuration with no endpoint set. -/
def c3Config : AIConfig :=
  { provider := .customEndpoint, model := "gemini-3-flash-preview",
    customEndpoint := none }

/-- An insight environment in which every channel fails. -/
def downInsightEnv : InsightEnv :=
  { genaiText := fun _ _ => .error "network down",
    parseReport := fun _ => none,
    endpointFetch := fun _ => .error "network down" }

/-- An event carrying no `duration` and no `loadTime` metadata. -/
def bareEvent : AnalyticsEvent :=
  { id := "e1", type := "pageview", path := "/home", referrer := "direct",
    timestamp := 0,
    metadata := { browser := "Chrome", os := "MacOS", device := "desktop" } }

lemma jsDivBase_pos (n : Nat) : 0 < jsDivBase n := by
  unfold jsDivBase; split <;> omega

lemma jround_mono {q r : ℚ} (h : q ≤ r) : jround q ≤ jround r :=
  Int.floor_le_floor (by linarith)

/-- C3: whenever the selected provider's request fails — a thrown exception,
a network error, a non-2xx status, a missing endpoint, or a malformed JSON
response body, all of which surface as an `Except.error` of the provider
dispatch — `getInsights` still returns a report (the promise resolves), and
that report is the fixed fallback whose `performanceScore` is 0. -/
theorem getInsights_failure_fallback (events : List AnalyticsEvent)
    (config : AIConfig) (env : InsightEnv) (e : String)
    (h : providerResult events config env = .error e) :
    getInsights events config env = fallbackReport ∧
    (getInsights events config env).performanceScore = 0 := by
  simp [getInsights, h, fallbackReport]

theorem getInsights_failure_fallback_witness :
    getInsights [] c3Config downInsightEnv = fallbackReport ∧
    (getInsights [] c3Config downInsightEnv).performanceScore = 0 :=
  getInsights_failure_fallback [] c3Config downInsightEnv
    "No custom endpoint configured" rfl

/-- C10: with the verified-connection flag false, both the src/App.tsx and the
src/unnamed/part_001 send operations return immediately: no fetch is issued,
no alert is raised, nothing is thrown, and the state — events, sent-log,
status — is returned unchanged, for any payload override. -/
theorem unverified_send_noop (payloadOverride : Option Payload) (s : AppState)
    (envA envB : SendEnv) (h : s.isVerified = false) :
    appSendSimulatedEvent payloadOverride s envA = ⟨s, 0, [], none⟩ ∧
    pBSendSimulatedEvent payloadOverride s envB = ⟨s, 0, [], none⟩ := by
  simp [appSendSimulatedEvent, pBSendSimulatedEvent, h]

theorem unverified_send_noop_witness :
    appSendSimulatedEvent none idleState plainEnv = ⟨idleState, 0, [], none⟩ ∧
    pBSendSimulatedEvent none idleState plainEnv = ⟨idleState, 0, [], none⟩ :=
  unverified_send_noop none idleState plainEnv plainEnv rfl

/-- C2: when the advanced-mode editor text does not parse as JSON and no
payload override is given, the src/unnamed/part_000 send operation issues no
network call, appends no event and no log entry, raises exactly one
`MalformedPayload` alert, and returns normally (nothing thrown); the
src/App.tsx variant likewise issues no network call and changes nothing, its
single report to the caller being the propagated `JSON.parse` exception. -/
theorem invalid_json_send_no_effect (s : AppState) (env : SendEnv)
    (hp : env.jsonParse s.customJson = none) (he : ¬ s.customEndpoint = "")
    (hv : s.isVerified = true) :
    (pASendSimulatedEvent none s env).fetchCount = 0 ∧
    (pASendSimulatedEvent none s env).state.events = s.events ∧
    (pASendSimulatedEvent none s env).state.sentLogs = s.sentLogs ∧
    (pASendSimulatedEvent none s env).alerts = ["Invalid JSON in Advanced Designer"] ∧
    (pASendSimulatedEvent none s env).thrown = none ∧
    (pASendSimulatedEvent none s env).state.testStatus = TestStatus.error ∧
    appSendSimulatedEvent none s env = ⟨s, 0, [], some "SyntaxError: JSON.parse"⟩ := by
  simp [pASendSimulatedEvent, appSendSimulatedEvent, hp, he, hv, Option.orElse]

theorem invalid_json_send_no_effect_witness :
    (pASendSimulatedEvent none advState plainEnv).fetchCount = 0 ∧
    (pASendSimulatedEvent none advState plainEnv).state.events = advState.events ∧
    (pASendSimulatedEvent none advState plainEnv).state.sentLogs = advState.sentLogs ∧
    (pASendSimulatedEvent none advState plainEnv).alerts = ["Invalid JSON in Advanced Designer"] ∧
    (pASendSimulatedEvent none advState plainEnv).thrown = none ∧
    (pASendSimulatedEvent none advState plainEnv).state.testStatus = TestStatus.error ∧
    appSendSimulatedEvent none advState plainEnv = ⟨advState, 0, [], some "SyntaxError: JSON.parse"⟩ :=
  invalid_json_send_no_effect advState plainEnv rfl (by decide) rfl

/-- C5 counterexample: on the empty event list the second funnel step's
`dropoff` is 100, not 0 — the code computes `round((1 - 0/1) * 100)` through
the `|| 1` division base, so the claim that every step of the empty report has
dropoff 0 is false. -/
theorem funnel_empty_dropoff_not_zero :
    ((funnelData []).steps.map (·.dropoff))[1]? = some 100 ∧ (100 : ℤ) ≠ 0 := by
  constructor
  · simp only [funnelData, homeCount, pricingCount, signupCount, completedCount,
      List.filter_nil, List.length_nil, List.map_cons, List.map_nil]
    norm_num [jround, jsDivBase, Int.floor_eq_iff]
  · decide

/-- C5 amended: on the empty event list the funnel report computes without
error; every step has count 0 and conversion 0, the first step has dropoff 0,
and each later step has dropoff 100 (round((1 - 0/1) * 100)). -/
theorem funnel_empty_report :
    ((funnelData []).steps.map (·.count) = [0, 0, 0, 0]) ∧
    ((funnelData []).steps.map (·.conversion) = [0, 0, 0, 0]) ∧
    ((funnelData []).steps.map (·.dropoff) = [0, 100, 100, 100]) := by
  refine ⟨?_, ?_, ?_⟩ <;>
    simp only [funnelData, homeCount, pricingCount, signupCount, completedCount,
      List.filter_nil, List.length_nil, List.map_cons, List.map_nil] <;>
    norm_num [jround, jsDivBase, Int.floor_eq_iff]

/-- C1 evidence: with a verified endpoint answering HTTP 500 (delivered
response, not ok), the src/App.tsx send operation appends no sent-log entry
and no event — its `if (response.ok)` block has no `else`, and the catch is
not reached, so only `testStatus = 'sending'` remains — whereas the
src/unnamed/part_000 iteration appends exactly one entry whose final status is
`error` and no event, which is the behaviour the spec describes. -/
theorem http500_appends_no_log_in_app :
    (appSendSimulatedEvent (some c1Payload) c1State c1Env).state.sentLogs = [] ∧
    (appSendSimulatedEvent (some c1Payload) c1State c1Env).state.events = [] ∧
    (appSendSimulatedEvent (some c1Payload) c1State c1Env).fetchCount = 1 ∧
    (appSendSimulatedEvent (some c1Payload) c1State c1Env).state.testStatus = TestStatus.sending ∧
    ((pASendSimulatedEvent (some c1Payload) c1State c1Env).state.sentLogs.map
      (fun l => (l.id, l.status)) = [("abc12", LogStatus.error)]) ∧
    (pASendSimulatedEvent (some c1Payload) c1State c1Env).state.events = [] ∧
    (pASendSimulatedEvent (some c1Payload) c1State c1Env).fetchCount = 1 := by
  refine ⟨?_, ?_, ?_, ?_, ?_, ?_, ?_⟩ <;> rfl

/-- C4 counterexample: with one `/home` visit and two `/pricing` views the
second step's dropoff is `round((1 - 2/1) * 100) = -100`; the code does not
clamp it to be at least 0, so the claimed clamped formula is false at this
input. -/
theorem funnel_dropoff_negative :
    (funnelData c4Events).steps.map (·.dropoff) = [0, -100, 100, 100] ∧
    ¬ (0 : ℤ) ≤ -100 := by
  have h0 : homeCount c4Events = 1 := rfl
  have h1 : pricingCount c4Events = 2 := rfl
  have h2 : signupCount c4Events = 0 := rfl
  have h3 : completedCount c4Events = 0 := rfl
  constructor
  · simp only [funnelData, h0, h1, h2, h3, List.map_cons, List.map_nil]
    norm_num [jround, jsDivBase, Int.floor_eq_iff]
  · decide

/-- C4 amended: in the funnel report, step 0 has dropoff 0 and each step i>0
has dropoff `round((1 - count[i]/(count[i-1] || 1)) * 100)` — the division
base is floored at 1 when the previous count is 0, and the result is NOT
clamped to be at least 0 (it is negative whenever a later step's count
exceeds the previous step's). -/
theorem funnel_dropoff_formula (es : List AnalyticsEvent) :
    (funnelData es).steps.map (·.dropoff) =
      [0,
       jround ((1 - (stepCount es 1 : ℚ) / (jsDivBase (stepCount es 0) : ℚ)) * 100),
       jround ((1 - (stepCount es 2 : ℚ) / (jsDivBase (stepCount es 1) : ℚ)) * 100),
       jround ((1 - (stepCount es 3 : ℚ) / (jsDivBase (stepCount es 2) : ℚ)) * 100)] :=
  rfl

/-- C6: whenever the four funnel step counts are non-increasing in index
order (as when the step memberships are nested), the computed conversion
percentages are monotonically non-increasing across the steps. -/
theorem funnel_conversion_monotone (es : List AnalyticsEvent)
    (h01 : pricingCount es ≤ homeCount es)
    (h12 : signupCount es ≤ pricingCount es)
    (h23 : completedCount es ≤ signupCount es) :
    List.Chain' (fun a b => b ≤ a) ((funnelData es).steps.map (·.conversion)) := by
  have key : ∀ a b : Nat, a ≤ b →
      jround (((a : ℚ) / (jsDivBase (homeCount es) : ℚ)) * 100) ≤
      jround (((b : ℚ) / (jsDivBase (homeCount es) : ℚ)) * 100) := by
    intro a b hab
    apply jround_mono
    have hq : (a : ℚ) ≤ (b : ℚ) := by exact_mod_cast hab
    gcongr
  simp only [funnelData, List.map_cons, List.map_nil, List.chain'_cons,
    List.chain'_singleton, and_true]
  exact ⟨key _ _ h01, key _ _ h12, key _ _ h23⟩

theorem funnel_conversion_monotone_witness :
    List.Chain' (fun a b => b ≤ a) ((funnelData []).steps.map (·.conversion)) :=
  funnel_conversion_monotone [] (by decide) (by decide) (by decide)

lemma foldl_loadTime_none (es : List AnalyticsEvent)
    (h : ∀ e ∈ es, e.metadata.loadTime = none) :
    ∀ acc : ℚ, es.foldl (fun acc e => acc + jsOrNum e.metadata.loadTime 600) acc =
      acc + 600 * es.length := by
  induction es with
  | nil => intro acc; simp
  | cons e t ih =>
    intro acc
    have hge : e.metadata.loadTime = none := h e (by simp)
    have ht : ∀ x ∈ t, x.metadata.loadTime = none := fun x hx => h x (by simp [hx])
    simp only [List.foldl_cons, List.length_cons]
    rw [ih ht, hge]
    simp only [jsOrNum]
    push_cast
    ring

lemma foldl_duration_none (es : List AnalyticsEvent)
    (h : ∀ e ∈ es, e.metadata.duration = none) :
    ∀ acc : ℚ, es.foldl (fun acc e => acc + jsOrNum e.metadata.duration 45) acc =
      acc + 45 * es.length := by
  induction es with
  | nil => intro acc; simp
  | cons e t ih =>
    intro acc
    have hge : e.metadata.duration = none := h e (by simp)
    have ht : ∀ x ∈ t, x.metadata.duration = none := fun x hx => h x (by simp [hx])
    simp only [List.foldl_cons, List.length_cons]
    rw [ih ht, hge]
    simp only [jsOrNum]
    push_cast
    ring

/-- C8: `avgLoadTime` and `avgDuration` are 0 on the empty event list, and on
any non-empty list in which every event lacks the `loadTime` (respectively
`duration`) metadata field they equal the documented fallback constants 600
and 45 — not NaN, since the division is guarded by the length check. -/
theorem stats_avg_defaults (now : Nat) (es fs : List AnalyticsEvent)
    (hes : es ≠ []) (hfs : fs ≠ [])
    (hl : ∀ e ∈ es, e.metadata.loadTime = none)
    (hd : ∀ e ∈ fs, e.metadata.duration = none) :
    (stats now []).avgLoadTime = 0 ∧ (stats now []).avgDuration = 0 ∧
    (stats now es).avgLoadTime = 600 ∧ (stats now fs).avgDuration = 45 := by
  have h600 : jround (600 : ℚ) = 600 := by norm_num [jround, Int.floor_eq_iff]
  have h45 : jround (45 : ℚ) = 45 := by norm_num [jround, Int.floor_eq_iff]
  refine ⟨rfl, rfl, ?_, ?_⟩
  · have hpos : 0 < es.length := List.length_pos.2 hes
    have hcast : (es.length : ℚ) ≠ 0 := Nat.cast_ne_zero.2 (by omega)
    simp only [stats, hpos, if_true]
    rw [foldl_loadTime_none es hl 0, zero_add, mul_div_assoc, div_self hcast,
      mul_one, h600]
  · have hpos : 0 < fs.length := List.length_pos.2 hfs
    have hcast : (fs.length : ℚ) ≠ 0 := Nat.cast_ne_zero.2 (by omega)
    simp only [stats, hpos, if_true]
    rw [foldl_duration_none fs hd 0, zero_add, mul_div_assoc, div_self hcast,
      mul_one, h45]

theorem stats_avg_defaults_witness :
    (stats 0 []).avgLoadTime = 0 ∧ (stats 0 []).avgDuration = 0 ∧
    (stats 0 [bareEvent]).avgLoadTime = 600 ∧ (stats 0 [bareEvent]).avgDuration = 45 :=
  stats_avg_defaults 0 [bareEvent] [bareEvent] (by decide) (by decide)
    (by intro e he; simp at he; rw [he]; rfl)
    (by intro e he; simp at he; rw [he]; rfl)

lemma appSend_logs_cases (payloadOverride : Option Payload) (s : AppState)
    (env : SendEnv) :
    (appSendSimulatedEvent payloadOverride s env).state.sentLogs = s.sentLogs ∨
    ∃ l, (appSendSimulatedEvent payloadOverride s env).state.sentLogs =
      (l :: s.sentLogs).take 10 := by
  unfold appSendSimulatedEvent
  split
  · exact Or.inl rfl
  · split
    · exact Or.inl rfl
    · split
      · exact Or.inr ⟨_, rfl⟩
      · split
        · exact Or.inr ⟨_, rfl⟩
        · exact Or.inl rfl

lemma updateLogStatus_length (logId : String) (st : LogStatus) (logs : List SentLog) :
    (updateLogStatus logId st logs).length = logs.length := by
  simp [updateLogStatus]

lemma pASend_logs_cases (payloadOverride : Option Payload) (s : AppState)
    (env : SendEnv) :
    (pASendSimulatedEvent payloadOverride s env).state.sentLogs = s.sentLogs ∨
    ((pASendSimulatedEvent payloadOverride s env).state.sentLogs.head?.map (·.id) =
        some env.newId ∧
      (pASendSimulatedEvent payloadOverride s env).state.sentLogs.length =
        min 10 (s.sentLogs.length + 1)) := by
  unfold pASendSimulatedEvent
  split
  · exact Or.inl rfl
  · split
    · exact Or.inl rfl
    · split
      · refine Or.inr ⟨?_, ?_⟩ <;>
          simp [updateLogStatus, List.take_succ_cons, List.length_take] <;> omega
      · split
        · refine Or.inr ⟨?_, ?_⟩ <;>
            simp [updateLogStatus, List.take_succ_cons, List.length_take] <;> omega
        · refine Or.inr ⟨?_, ?_⟩ <;>
            simp [updateLogStatus, List.take_succ_cons, List.length_take] <;> omega

/-- C9: starting from a sent-log of length at most 10, both the src/App.tsx
send operation and the src/unnamed/part_000 iteration leave a log of length at
most 10; whenever the log changes, the newest entry sits at the head — in
src/App.tsx the new log is literally the new entry consed on the old log and
truncated to 10, and in part_000 the head carries the freshly drawn id and the
length grows by exactly one up to the bound. -/
theorem sent_log_bounded (payloadOverride : Option Payload) (s : AppState)
    (env : SendEnv) (h : s.sentLogs.length ≤ 10) :
    ((appSendSimulatedEvent payloadOverride s env).state.sentLogs.length ≤ 10 ∧
      ((appSendSimulatedEvent payloadOverride s env).state.sentLogs = s.sentLogs ∨
        ∃ l, (appSendSimulatedEvent payloadOverride s env).state.sentLogs =
          (l :: s.sentLogs).take 10)) ∧
    ((pASendSimulatedEvent payloadOverride s env).state.sentLogs.length ≤ 10 ∧
      ((pASendSimulatedEvent payloadOverride s env).state.sentLogs = s.sentLogs ∨
        ((pASendSimulatedEvent payloadOverride s env).state.sentLogs.head?.map (·.id) =
            some env.newId ∧
          (pASendSimulatedEvent payloadOverride s env).state.sentLogs.length =
            min 10 (s.sentLogs.length + 1)))) := by
  constructor
  · refine ⟨?_, appSend_logs_cases payloadOverride s env⟩
    rcases appSend_logs_cases payloadOverride s env with hc | ⟨l, hc⟩ <;> rw [hc]
    · exact h
    · simp [List.length_take]
  · refine ⟨?_, pASend_logs_cases payloadOverride s env⟩
    rcases pASend_logs_cases payloadOverride s env with hc | ⟨_, hc⟩ <;> rw [hc]
    · exact h
    · omega

theorem sent_log_bounded_witness :
    ((appSendSimulatedEvent none advState plainEnv).state.sentLogs.length ≤ 10 ∧
      ((appSendSimulatedEvent none advState plainEnv).state.sentLogs = advState.sentLogs ∨
        ∃ l, (appSendSimulatedEvent none advState plainEnv).state.sentLogs =
          (l :: advState.sentLogs).take 10)) ∧
    ((pASendSimulatedEvent none advState plainEnv).state.sentLogs.length ≤ 10 ∧
      ((pASendSimulatedEvent none advState plainEnv).state.sentLogs = advState.sentLogs ∨
        ((pASendSimulatedEvent none advState plainEnv).state.sentLogs.head?.map (·.id) =
            some plainEnv.newId ∧
          (pASendSimulatedEvent none advState plainEnv).state.sentLogs.length =
            min 10 (advState.sentLogs.length + 1)))) :=
  sent_log_bounded none advState plainEnv (by decide)

lemma seedBlock_filter_true (p : AnalyticsEvent → Bool) (idG : Nat → String)
    (tsG : Nat → Nat) (n : Nat) (path ty : String)
    (h : ∀ i, p { id := idG i, type := ty, path := path, referrer := "direct",
                  timestamp := tsG i, metadata := seedMeta i } = true) :
    ((seedBlock idG tsG n path ty).filter p).length = n := by
  unfold seedBlock
  rw [← List.countP_eq_length_filter, List.countP_map]
  rw [List.countP_eq_length.2 (fun a _ => by simp only [Function.comp_apply, h a])]
  exact List.length_range n

lemma seedBlock_filter_false (p : AnalyticsEvent → Bool) (idG : Nat → String)
    (tsG : Nat → Nat) (n : Nat) (path ty : String)
    (h : ∀ i, p { id := idG i, type := ty, path := path, referrer := "direct",
                  timestamp := tsG i, metadata := seedMeta i } = false) :
    ((seedBlock idG tsG n path ty).filter p).length = 0 := by
  unfold seedBlock
  rw [← List.countP_eq_length_filter, List.countP_map]
  exact List.countP_eq_zero.2 (fun a _ => by simp only [Function.comp_apply, h a, Bool.false_eq_true, not_false_eq_true])

lemma homeCount_seed (idG : Nat → Nat → String) (tsG : Nat → Nat → Nat) :
    homeCount (seedEvents idG tsG) = 450 := by
  unfold homeCount seedEvents
  simp only [List.filter_append, List.length_append]
  rw [seedBlock_filter_true _ _ _ _ _ _ (fun i => rfl),
    seedBlock_filter_false _ _ _ _ _ _ (fun i => rfl),
    seedBlock_filter_false _ _ _ _ _ _ (fun i => rfl),
    seedBlock_filter_false _ _ _ _ _ _ (fun i => rfl)]

lemma pricingCount_seed (idG : Nat → Nat → String) (tsG : Nat → Nat → Nat) :
    pricingCount (seedEvents idG tsG) = 280 := by
  unfold pricingCount seedEvents
  simp only [List.filter_append, List.length_append]
  rw [seedBlock_filter_false _ _ _ _ _ _ (fun i => rfl),
    seedBlock_filter_true _ _ _ _ _ _ (fun i => rfl),
    seedBlock_filter_false _ _ _ _ _ _ (fun i => rfl),
    seedBlock_filter_false _ _ _ _ _ _ (fun i => rfl)]

lemma signupCount_seed (idG : Nat → Nat → String) (tsG : Nat → Nat → Nat) :
    signupCount (seedEvents idG tsG) = 120 := by
  unfold signupCount seedEvents
  simp only [List.filter_append, List.length_append]
  rw [seedBlock_filter_false _ _ _ _ _ _ (fun i => rfl),
    seedBlock_filter_false _ _ _ _ _ _ (fun i => rfl),
    seedBlock_filter_true _ _ _ _ _ _ (fun i => rfl),
    seedBlock_filter_false _ _ _ _ _ _ (fun i => rfl)]

lemma completedCount_seed (idG : Nat → Nat → String) (tsG : Nat → Nat → Nat) :
    completedCount (seedEvents idG tsG) = 65 := by
  unfold completedCount seedEvents
  simp only [List.filter_append, List.length_append]
  rw [seedBlock_filter_false _ _ _ _ _ _ (fun i => rfl),
    seedBlock_filter_false _ _ _ _ _ _ (fun i => rfl),
    seedBlock_filter_false _ _ _ _ _ _ (fun i => rfl),
    seedBlock_filter_true _ _ _ _ _ _ (fun i => rfl)]

/-- C7: for the seeded event list — 450 `/home` pageviews, 280 `/pricing`
pageviews, 120 `signup_start` events at `/signup` and 65 `purchase_complete`
events at `/checkout/success`, whatever the random ids and timestamps — the
funnel conversions are 100, 62, 27 and 14 percent in step order, and the
first step's dropoff is 0. -/
theorem seeded_funnel_conversions (idG : Nat → Nat → String) (tsG : Nat → Nat → Nat) :
    (funnelData (seedEvents idG tsG)).steps.map (·.conversion) = [100, 62, 27, 14] ∧
    ((funnelData (seedEvents idG tsG)).steps.map (·.dropoff))[0]? = some 0 := by
  have h0 := homeCount_seed idG tsG
  have h1 := pricingCount_seed idG tsG
  have h2 := signupCount_seed idG tsG
  have h3 := completedCount_seed idG tsG
  constructor
  · simp only [funnelData, h0, h1, h2, h3, List.map_cons, List.map_nil]
    norm_num [jround, jsDivBase, Int.floor_eq_iff]
  · simp only [funnelData, List.map_cons, List.getElem?_cons_zero]

end LiteTrack
